import Mathlib

/-!
Verification development for the frameless-window chrome engine
(`winnativeeventfilter.cpp`, `framelesshelper_qt.cpp`, `framelessmanager.cpp`).

The C++ code is shallowly embedded: machine integers become `Int`/`Nat`,
`qreal` becomes `ℚ`, Win32 state reachable through the registry becomes
explicit state records, and each message handler becomes a pure function
from its inputs to its outputs.
-/

namespace FramelessHelper

/-! ## Qt geometry primitives

`QRect` stores `x1,y1,x2,y2` with `x2 = x + w - 1`, `y2 = y + h - 1`.
We keep the `(x, y, w, h)` constructor form used by the source. -/

structure QRectQ where
  x : Int
  y : Int
  w : Int
  h : Int
deriving DecidableEq

/-- QRect::isValid: `left <= right && top <= bottom` with
`right = x + w - 1`, `bottom = y + h - 1`. -/
def QRectQ.isValid (r : QRectQ) : Bool :=
  decide (r.x ≤ r.x + r.w - 1) && decide (r.y ≤ r.y + r.h - 1)

/-- QRect::contains(x, y, proper = true): Qt first normalizes a rectangle
whose stored right edge is more than one less than its left edge, then
requires the point to be strictly between the edges. -/
def QRectQ.containsProper (r : QRectQ) (px py : Int) : Bool :=
  let x1 := r.x
  let x2 := r.x + r.w - 1
  let y1 := r.y
  let y2 := r.y + r.h - 1
  let l := if x2 < x1 - 1 then x2 else x1
  let rr := if x2 < x1 - 1 then x1 else x2
  let t := if y2 < y1 - 1 then y2 else y1
  let b := if y2 < y1 - 1 then y1 else y2
  !(decide (px ≤ l) || decide (px ≥ rr)) && !(decide (py ≤ t) || decide (py ≥ b))

/-- C++ implicit conversion from a floating value to `int`: truncation
toward zero. -/
def qTruncToInt (q : ℚ) : Int :=
  if 0 ≤ q then ⌊q⌋ else ⌈q⌉

/-- The rectangle `QRect(area.x()*dpr, area.y()*dpr, area.width()*dpr,
area.height()*dpr)` built inside `isInSpecificAreas`: every product is a
`qreal` truncated by the `int` constructor parameters. -/
def scaledRect (r : QRectQ) (dpr : ℚ) : QRectQ :=
  { x := qTruncToInt ((r.x : ℚ) * dpr)
    y := qTruncToInt ((r.y : ℚ) * dpr)
    w := qTruncToInt ((r.w : ℚ) * dpr)
    h := qTruncToInt ((r.h : ℚ) * dpr) }

/-- `isInSpecificAreas` from the WM_NCHITTEST handler: skip invalid
rectangles, scale each remaining one by the DPR, and short-circuit on the
first proper containment. -/
def isInSpecificAreas (x y : Int) (areas : List QRectQ) (dpr : ℚ) : Bool :=
  areas.any (fun area => area.isValid && (scaledRect area dpr).containsProper x y)

/-! ## Hit-test engine (WM_NCHITTEST handler, `getHTResult`) -/

def HTCLIENT : Int := 1
def HTCAPTION : Int := 2
def HTLEFT : Int := 10
def HTRIGHT : Int := 11
def HTTOP : Int := 12
def HTTOPLEFT : Int := 13
def HTTOPRIGHT : Int := 14
def HTBOTTOM : Int := 15
def HTBOTTOMLEFT : Int := 16
def HTBOTTOMRIGHT : Int := 17

/-- Inputs of `getHTResult` after the Win32 calls have been performed:
client size from GetClientRect (`ww = right`, `wh = bottom`), the mouse
point already converted to client coordinates, the three DPI-aware
metrics, the DPR, the two configured area lists and IsMaximized. -/
structure HitTestInput where
  ww : Int
  wh : Int
  mouseX : Int
  mouseY : Int
  bw : Int
  bh : Int
  tbh : Int
  dpr : ℚ
  ignoreAreas : List QRectQ
  draggableAreas : List QRectQ
  maximized : Bool

/-- `isInsideWindow`: `(mouse.x > 0) && (mouse.x < ww) && (mouse.y > 0) &&
(mouse.y < wh)`. -/
def isInsideWindow (p : HitTestInput) : Bool :=
  decide (p.mouseX > 0) && decide (p.mouseX < p.ww) &&
    decide (p.mouseY > 0) && decide (p.mouseY < p.wh)

/-- `isTitlebar`: inside the window, above the title-bar height, not in an
ignore area, and (no draggable areas configured, or in one of them). -/
def isTitlebar (p : HitTestInput) : Bool :=
  isInsideWindow p && decide (p.mouseY < p.tbh) &&
    !(isInSpecificAreas p.mouseX p.mouseY p.ignoreAreas p.dpr) &&
    (if p.draggableAreas.isEmpty then true
     else isInSpecificAreas p.mouseX p.mouseY p.draggableAreas p.dpr)

def isTop (p : HitTestInput) : Bool :=
  isInsideWindow p && decide (p.mouseY < p.bh)

def isBottom (p : HitTestInput) : Bool :=
  isInsideWindow p && decide (p.mouseY > p.wh - p.bh)

def isLeft (p : HitTestInput) : Bool :=
  isInsideWindow p && decide (p.mouseX < p.bw)

def isRight (p : HitTestInput) : Bool :=
  isInsideWindow p && decide (p.mouseX > p.ww - p.bw)

/-- The body of `getHTResult` in the WM_NCHITTEST case. -/
def getHTResult (p : HitTestInput) : Int :=
  if p.maximized then
    if isTitlebar p then HTCAPTION else HTCLIENT
  else if isTop p then
    (if isLeft p then HTTOPLEFT else if isRight p then HTTOPRIGHT else HTTOP)
  else if isBottom p then
    (if isLeft p then HTBOTTOMLEFT
     else if isRight p then HTBOTTOMRIGHT
     else HTBOTTOM)
  else if isLeft p then HTLEFT
  else if isRight p then HTRIGHT
  else if isTitlebar p then HTCAPTION
  else HTCLIENT

/-! Spec-side definitions, written from the specification's words, to be
compared with the embedded code above. -/

/-- Spec wording: point strictly inside the client rectangle. -/
def insideClientStrict (p : HitTestInput) : Bool :=
  decide (0 < p.mouseX) && decide (p.mouseX < p.ww) &&
    decide (0 < p.mouseY) && decide (p.mouseY < p.wh)

/-- Spec wording of the title-strip test: `y < titlebarHeight`, not in any
`ignoreAreas` rectangle, and (`draggableAreas` empty OR inside one). -/
def titleStrip (p : HitTestInput) : Bool :=
  insideClientStrict p && decide (p.mouseY < p.tbh) &&
    !(isInSpecificAreas p.mouseX p.mouseY p.ignoreAreas p.dpr) &&
    (p.draggableAreas.isEmpty ||
      isInSpecificAreas p.mouseX p.mouseY p.draggableAreas p.dpr)

/-- Spec wording: within top band (`y < borderHeight`), conditioned on the
point being strictly inside the client rectangle. -/
def bandTop (p : HitTestInput) : Bool :=
  insideClientStrict p && decide (p.mouseY < p.bh)

/-- Spec wording: within bottom band (`y > height - borderHeight`). -/
def bandBottom (p : HitTestInput) : Bool :=
  insideClientStrict p && decide (p.mouseY > p.wh - p.bh)

/-- Spec wording: within left band (`x < borderWidth`). -/
def bandLeft (p : HitTestInput) : Bool :=
  insideClientStrict p && decide (p.mouseX < p.bw)

/-- Spec wording: within right band (`x > width - borderWidth`). -/
def bandRight (p : HitTestInput) : Bool :=
  insideClientStrict p && decide (p.mouseX > p.ww - p.bw)

/-- Spec wording of the non-maximized resolution order: top-left,
top-right, bottom-left, bottom-right, then top, bottom, left, right, then
title-bar, else client area. -/
def classifySpec (p : HitTestInput) : Int :=
  if bandTop p && bandLeft p then HTTOPLEFT
  else if bandTop p && bandRight p then HTTOPRIGHT
  else if bandBottom p && bandLeft p then HTBOTTOMLEFT
  else if bandBottom p && bandRight p then HTBOTTOMRIGHT
  else if bandTop p then HTTOP
  else if bandBottom p then HTBOTTOM
  else if bandLeft p then HTLEFT
  else if bandRight p then HTRIGHT
  else if titleStrip p then HTCAPTION
  else HTCLIENT

lemma insideClientStrict_eq (p : HitTestInput) :
    insideClientStrict p = isInsideWindow p := rfl

lemma titleStrip_eq (p : HitTestInput) : titleStrip p = isTitlebar p := by
  unfold titleStrip isTitlebar insideClientStrict isInsideWindow
  cases p.draggableAreas.isEmpty <;> simp

lemma bandTop_eq (p : HitTestInput) : bandTop p = isTop p := rfl

lemma bandBottom_eq (p : HitTestInput) : bandBottom p = isBottom p := rfl

lemma bandLeft_eq (p : HitTestInput) : bandLeft p = isLeft p := rfl

lemma bandRight_eq (p : HitTestInput) : bandRight p = isRight p := rfl

lemma isTitlebar_iff (p : HitTestInput) (hin : isInsideWindow p = true)
    (h : p.mouseY < p.tbh) :
    isTitlebar p = true ↔
      (isInSpecificAreas p.mouseX p.mouseY p.ignoreAreas p.dpr = false ∧
       (p.draggableAreas.isEmpty = true ∨
        isInSpecificAreas p.mouseX p.mouseY p.draggableAreas p.dpr = true)) := by
  unfold isTitlebar
  rw [hin]
  cases he : p.draggableAreas.isEmpty <;>
    simp [h, he, Bool.not_eq_true']

lemma isTitlebar_false_of_ignore (p : HitTestInput)
    (h : isInSpecificAreas p.mouseX p.mouseY p.ignoreAreas p.dpr = true) :
    isTitlebar p = false := by
  unfold isTitlebar
  rw [h]
  simp

lemma getHTResult_eq_caption_iff (p : HitTestInput) :
    getHTResult p = HTCAPTION ↔
      (isTitlebar p = true ∧
       (p.maximized = true ∨
         (isTop p = false ∧ isBottom p = false ∧ isLeft p = false ∧
          isRight p = false))) := by
  unfold getHTResult
  by_cases hm : p.maximized = true <;>
    by_cases ht : isTitlebar p = true <;>
    by_cases h1 : isTop p = true <;>
    by_cases h2 : isBottom p = true <;>
    by_cases h3 : isLeft p = true <;>
    by_cases h4 : isRight p = true <;>
    simp_all [HTCAPTION, HTCLIENT, HTTOP, HTTOPLEFT, HTTOPRIGHT, HTBOTTOM,
      HTBOTTOMLEFT, HTBOTTOMRIGHT, HTLEFT, HTRIGHT]

/-- C1 (amended): for a point strictly inside the client rectangle with
`y` below the title-bar height, the hit-test returns HTCAPTION exactly
when the ignore/draggable-area condition holds AND (the window is
maximized, or the point also avoids all four resize bands); moreover a
point inside an `ignoreAreas` rectangle is never classified HTCAPTION,
for every choice of `draggableAreas`. -/
theorem c1_title_bar_classification (p : HitTestInput) :
    ((0 < p.mouseX ∧ p.mouseX < p.ww ∧ 0 < p.mouseY ∧ p.mouseY < p.wh) →
     p.mouseY < p.tbh →
     (getHTResult p = HTCAPTION ↔
       (isInSpecificAreas p.mouseX p.mouseY p.ignoreAreas p.dpr = false ∧
        (p.draggableAreas.isEmpty = true ∨
         isInSpecificAreas p.mouseX p.mouseY p.draggableAreas p.dpr = true) ∧
        (p.maximized = true ∨
          (p.bh ≤ p.mouseY ∧ p.mouseY ≤ p.wh - p.bh ∧ p.bw ≤ p.mouseX ∧
           p.mouseX ≤ p.ww - p.bw)))))
    ∧ (isInSpecificAreas p.mouseX p.mouseY p.ignoreAreas p.dpr = true →
        getHTResult p ≠ HTCAPTION) := by
  constructor
  · intro hin htbh
    have hinb : isInsideWindow p = true := by
      simp only [isInsideWindow, Bool.and_eq_true, decide_eq_true_eq]
      exact ⟨⟨⟨hin.1, hin.2.1⟩, hin.2.2.1⟩, hin.2.2.2⟩
    have hbands : (isTop p = false ∧ isBottom p = false ∧ isLeft p = false ∧
        isRight p = false) ↔
        (p.bh ≤ p.mouseY ∧ p.mouseY ≤ p.wh - p.bh ∧ p.bw ≤ p.mouseX ∧
          p.mouseX ≤ p.ww - p.bw) := by
      unfold isTop isBottom isLeft isRight
      rw [hinb]
      simp only [Bool.true_and, decide_eq_false_iff_not]
      omega
    rw [getHTResult_eq_caption_iff, isTitlebar_iff p hinb htbh, hbands,
      and_assoc]
  · intro hig hcap
    rw [getHTResult_eq_caption_iff] at hcap
    simp [isTitlebar_false_of_ignore p hig] at hcap

/-- Concrete input refuting C1 as stated: the point (400, 4) in an
800×600 client with border height 8 and title-bar height 32 is strictly
inside, has `y < titlebarHeight`, is in no ignore area and
`draggableAreas` is empty, yet the hit-test classifies it as the top
resize edge, not as title-bar. -/
def c1Point : HitTestInput :=
  { ww := 800, wh := 600, mouseX := 400, mouseY := 4, bw := 8, bh := 8,
    tbh := 32, dpr := 1, ignoreAreas := [], draggableAreas := [],
    maximized := false }

/-- C1 counterexample: at `c1Point` every hypothesis of the claim holds
and the draggable-area condition is satisfied, yet the result is HTTOP,
not HTCAPTION. -/
theorem c1_counterexample :
    (0 < c1Point.mouseX ∧ c1Point.mouseX < c1Point.ww ∧
      0 < c1Point.mouseY ∧ c1Point.mouseY < c1Point.wh) ∧
    c1Point.mouseY < c1Point.tbh ∧
    isInSpecificAreas c1Point.mouseX c1Point.mouseY c1Point.ignoreAreas
      c1Point.dpr = false ∧
    c1Point.draggableAreas.isEmpty = true ∧
    getHTResult c1Point = HTTOP ∧
    getHTResult c1Point ≠ HTCAPTION := by decide

def c1WitnessPoint : HitTestInput :=
  { ww := 800, wh := 600, mouseX := 400, mouseY := 16, bw := 8, bh := 8,
    tbh := 32, dpr := 1, ignoreAreas := [], draggableAreas := [],
    maximized := true }

/-- C1 witness: the amended theorem applied at a concrete maximized
window and point gives the HTCAPTION classification. -/
theorem c1_title_bar_classification_witness :
    getHTResult c1WitnessPoint = HTCAPTION :=
  ((c1_title_bar_classification c1WitnessPoint).1 (by decide)
      (by decide)).mpr ⟨by decide, Or.inl (by decide), Or.inl rfl⟩

/-- C2: for a maximized window the hit-test returns only HTCAPTION or
HTCLIENT (never an edge or corner code), and it returns HTCAPTION exactly
when the title-strip test passes. -/
theorem c2_maximized_two_outcomes (p : HitTestInput)
    (h : p.maximized = true) :
    (getHTResult p = HTCAPTION ∨ getHTResult p = HTCLIENT) ∧
      (getHTResult p = HTCAPTION ↔ titleStrip p = true) := by
  unfold getHTResult
  rw [titleStrip_eq]
  by_cases ht : isTitlebar p = true <;> simp [h, ht, HTCAPTION, HTCLIENT]

def c2Point : HitTestInput :=
  { ww := 1920, wh := 1040, mouseX := 4, mouseY := 4, bw := 8, bh := 8,
    tbh := 32, dpr := 1, ignoreAreas := [], draggableAreas := [],
    maximized := true }

/-- C2 witness: the theorem applied at a concrete maximized window whose
pointer sits where a corner would be reported if the window were
restored. -/
theorem c2_maximized_two_outcomes_witness :
    getHTResult c2Point = HTCAPTION ∨ getHTResult c2Point = HTCLIENT :=
  (c2_maximized_two_outcomes c2Point rfl).1

/-- C3: for a non-maximized window the hit-test result equals the
spec-side resolver: four band booleans, each conditioned on being
strictly inside the client rectangle, resolved in the order top-left,
top-right, bottom-left, bottom-right, top, bottom, left, right,
title-bar, else client area. -/
theorem c3_edge_corner_resolution (p : HitTestInput)
    (h : p.maximized = false) :
    getHTResult p = classifySpec p := by
  unfold getHTResult classifySpec
  rw [titleStrip_eq, bandTop_eq, bandBottom_eq, bandLeft_eq, bandRight_eq]
  by_cases h1 : isTop p = true <;> by_cases h2 : isBottom p = true <;>
    by_cases h3 : isLeft p = true <;> by_cases h4 : isRight p = true <;>
    simp [h, h1, h2, h3, h4]

def c3Point : HitTestInput :=
  { ww := 800, wh := 600, mouseX := 4, mouseY := 4, bw := 8, bh := 8,
    tbh := 32, dpr := 1, ignoreAreas := [], draggableAreas := [],
    maximized := false }

/-- C3 witness: the theorem applied at the spec's scenario point (4,4) of
an 800×600 client with 8px borders, a top-left corner hit. -/
theorem c3_edge_corner_resolution_witness :
    getHTResult c3Point = classifySpec c3Point :=
  c3_edge_corner_resolution c3Point rfl

/-- C4: a point strictly outside the client rectangle is always
classified HTCLIENT, in the maximized branch and in the non-maximized
branch alike. -/
theorem c4_outside_client (p : HitTestInput)
    (h : p.mouseX < 0 ∨ p.mouseX > p.ww ∨ p.mouseY < 0 ∨ p.mouseY > p.wh) :
    getHTResult p = HTCLIENT := by
  have hin : isInsideWindow p = false := by
    unfold isInsideWindow
    rcases h with h | h | h | h
    · have hx : decide (p.mouseX > 0) = false := by simp; omega
      simp [hx]
    · have hx : decide (p.mouseX < p.ww) = false := by simp; omega
      simp [hx]
    · have hy : decide (p.mouseY > 0) = false := by simp; omega
      simp [hy]
    · have hy : decide (p.mouseY < p.wh) = false := by simp; omega
      simp [hy]
  have ht : isTitlebar p = false := by
    unfold isTitlebar
    rw [hin]
    simp
  have h1 : isTop p = false := by
    unfold isTop
    rw [hin]
    simp
  have h2 : isBottom p = false := by
    unfold isBottom
    rw [hin]
    simp
  have h3 : isLeft p = false := by
    unfold isLeft
    rw [hin]
    simp
  have h4 : isRight p = false := by
    unfold isRight
    rw [hin]
    simp
  unfold getHTResult
  by_cases hm : p.maximized = true <;> simp [hm, ht, h1, h2, h3, h4]

def c4Point : HitTestInput :=
  { ww := 800, wh := 600, mouseX := -5, mouseY := 300, bw := 8, bh := 8,
    tbh := 32, dpr := 1, ignoreAreas := [], draggableAreas := [],
    maximized := false }

/-- C4 witness: the theorem applied at a concrete point left of the
client rectangle. -/
theorem c4_outside_client_witness : getHTResult c4Point = HTCLIENT :=
  c4_outside_client c4Point (Or.inl (by decide))

/-! ## DPI resolver (`getDpiForWindow`, `getDprForWindow`)

The capability-probed function pointers resolved by `initDLLs` become
`Option`-valued fields: `none` models a pointer that failed to resolve.
`0` models a null HWND. -/

structure DpiEnv where
  GetSystemDpiForProcess : Option Nat
  GetDpiForWindow : Option (Nat → Nat)
  GetDpiForSystem : Option Nat
  GetDpiForMonitor : Option (Nat → Nat)
  d2dFactoryDpi : Option Nat
  deviceCapsDpi : Option Nat

/-- The `getScreenDpi` lambda: Direct2D desktop DPI when a factory can be
created, else the `GetDC`/`GetDeviceCaps` value, else the default. -/
def getScreenDpi (env : DpiEnv) (defaultValue : Nat) : Nat :=
  match env.d2dFactoryDpi with
  | some dpi => dpi
  | none =>
    match env.deviceCapsDpi with
    | some dpi => dpi
    | none => defaultValue

/-- `WinNativeEventFilter::getDpiForWindow`: for a null handle try
GetSystemDpiForProcess then GetDpiForSystem then `getScreenDpi`; for a
non-null handle try GetDpiForWindow then GetDpiForMonitor then
`getScreenDpi`, defaulting to USER_DEFAULT_SCREEN_DPI = 96. -/
def getDpiForWindowM (env : DpiEnv) (handle : Nat) : Nat :=
  if handle = 0 then
    match env.GetSystemDpiForProcess with
    | some dpi => dpi
    | none =>
      match env.GetDpiForSystem with
      | some dpi => dpi
      | none => getScreenDpi env 96
  else
    match env.GetDpiForWindow with
    | some f => f handle
    | none =>
      match env.GetDpiForMonitor with
      | some f => f handle
      | none => getScreenDpi env 96

/-- Qt::HighDpiScaleFactorRoundingPolicy. -/
inductive RoundingPolicy where
  | Round
  | Ceil
  | Floor
  | RoundPreferFloor
  | PassThrough
deriving DecidableEq

/-- qFloor on a `qreal`. -/
def qFloorQ (q : ℚ) : Int := ⌊q⌋

/-- qCeil on a `qreal`. -/
def qCeilQ (q : ℚ) : Int := ⌈q⌉

/-- qRound: `d >= 0 ? int(d + 0.5) : int(d - 0.5)` with C++ truncation
toward zero. -/
def qRoundQ (q : ℚ) : Int :=
  if 0 ≤ q then ⌊q + 1 / 2⌋ else ⌈q - 1 / 2⌉

/-- The switch statement of `getDprForWindow`: PassThrough leaves the
ratio unchanged, Floor and Ceil round down/up, and the `default` branch
(taken for Round, RoundPreferFloor and any unconfigured policy) applies
qRound. -/
def applyDprRoundingPolicy (policy : RoundingPolicy) (dpr : ℚ) : ℚ :=
  match policy with
  | .PassThrough => dpr
  | .Floor => (qFloorQ dpr : ℚ)
  | .Ceil => (qCeilQ dpr : ℚ)
  | _ => (qRoundQ dpr : ℚ)

/-- `WinNativeEventFilter::getDprForWindow`: DPI / 96 for a real window,
the constant `m_defaultDPR = 1.0` for a null handle, then the rounding
policy switch. -/
def getDprForWindowM (env : DpiEnv) (policy : RoundingPolicy)
    (handle : Nat) : ℚ :=
  applyDprRoundingPolicy policy
    (if handle ≠ 0 then ((getDpiForWindowM env handle : ℚ) / 96) else 1)

lemma applyDprRoundingPolicy_mono (policy : RoundingPolicy) {x y : ℚ}
    (h0 : 0 ≤ x) (hxy : x ≤ y) :
    applyDprRoundingPolicy policy x ≤ applyDprRoundingPolicy policy y := by
  have h0y : 0 ≤ y := h0.trans hxy
  cases policy with
  | PassThrough => exact hxy
  | Floor =>
    simp only [applyDprRoundingPolicy, qFloorQ]
    exact_mod_cast Int.floor_mono hxy
  | Ceil =>
    simp only [applyDprRoundingPolicy, qCeilQ]
    exact_mod_cast Int.ceil_mono hxy
  | Round =>
    simp only [applyDprRoundingPolicy, qRoundQ, if_pos h0, if_pos h0y]
    exact_mod_cast Int.floor_mono (by linarith)
  | RoundPreferFloor =>
    simp only [applyDprRoundingPolicy, qRoundQ, if_pos h0, if_pos h0y]
    exact_mod_cast Int.floor_mono (by linarith)

/-- C5: for a real window the computed device pixel ratio is the
resolved DPI divided by the 96-DPI baseline, adjusted by the configured
rounding policy, and under each fixed policy the adjusted scale factor
is monotonic non-decreasing in the DPI. -/
theorem c5_scale_factor (env : DpiEnv) (policy : RoundingPolicy)
    (handle : Nat) (hh : handle ≠ 0) (d1 d2 : Nat) (hd : d1 ≤ d2) :
    getDprForWindowM env policy handle =
      applyDprRoundingPolicy policy ((getDpiForWindowM env handle : ℚ) / 96)
    ∧ applyDprRoundingPolicy policy ((d1 : ℚ) / 96) ≤
        applyDprRoundingPolicy policy ((d2 : ℚ) / 96) := by
  constructor
  · unfold getDprForWindowM
    rw [if_pos hh]
  · apply applyDprRoundingPolicy_mono policy (by positivity)
    have : (d1 : ℚ) ≤ (d2 : ℚ) := by exact_mod_cast hd
    linarith

def c5Env : DpiEnv :=
  { GetSystemDpiForProcess := none
    GetDpiForWindow := some (fun _ => 120)
    GetDpiForSystem := none
    GetDpiForMonitor := none
    d2dFactoryDpi := none
    deviceCapsDpi := none }

/-- C5 witness: the theorem applied at a concrete environment resolving
120 DPI, with the pass-through policy and DPI values 96 ≤ 120. -/
theorem c5_scale_factor_witness :
    getDprForWindowM c5Env .PassThrough 1 =
      applyDprRoundingPolicy .PassThrough
        ((getDpiForWindowM c5Env 1 : ℚ) / 96)
    ∧ applyDprRoundingPolicy .PassThrough ((96 : ℚ) / 96) ≤
        applyDprRoundingPolicy .PassThrough ((120 : ℚ) / 96) :=
  c5_scale_factor c5Env .PassThrough 1 (by decide) 96 120 (by decide)

/-- First available tier of a fallback chain. -/
def firstSome (tiers : List (Option Nat)) (defaultValue : Nat) : Nat :=
  match tiers with
  | [] => defaultValue
  | some dpi :: _ => dpi
  | none :: rest => firstSome rest defaultValue

/-- Modelled from the claim's words: one single preference chain
per-window, per-process, per-system, per-monitor, device-context
fallback, then the hard-coded 96 baseline. -/
def claimDpiChain (env : DpiEnv) (handle : Nat) : Nat :=
  firstSome
    [env.GetDpiForWindow.map (fun f => f handle),
     env.GetSystemDpiForProcess,
     env.GetDpiForSystem,
     env.GetDpiForMonitor.map (fun f => f handle),
     env.deviceCapsDpi] 96

def c9Env : DpiEnv :=
  { GetSystemDpiForProcess := some 120
    GetDpiForWindow := none
    GetDpiForSystem := none
    GetDpiForMonitor := some (fun _ => 144)
    d2dFactoryDpi := none
    deviceCapsDpi := none }

/-- C9 counterexample: with GetDpiForWindow unresolved but
GetSystemDpiForProcess available (120) and GetDpiForMonitor available
(144), the claimed single chain would answer 120 for window handle 1,
but the code answers 144: the per-process and per-system tiers are never
consulted for a non-null handle. -/
theorem c9_counterexample :
    getDpiForWindowM c9Env 1 = 144 ∧ claimDpiChain c9Env 1 = 120 ∧
      getDpiForWindowM c9Env 1 ≠ claimDpiChain c9Env 1 := by
  refine ⟨rfl, rfl, ?_⟩
  decide

/-- The amended tier lists: a null handle tries per-process, per-system,
the Direct2D desktop DPI, the device-context value, then 96; a non-null
handle tries per-window, per-monitor, the Direct2D desktop DPI, the
device-context value, then 96. -/
def amendedDpiTiers (env : DpiEnv) (handle : Nat) : List (Option Nat) :=
  if handle = 0 then
    [env.GetSystemDpiForProcess, env.GetDpiForSystem, env.d2dFactoryDpi,
     env.deviceCapsDpi]
  else
    [env.GetDpiForWindow.map (fun f => f handle),
     env.GetDpiForMonitor.map (fun f => f handle), env.d2dFactoryDpi,
     env.deviceCapsDpi]

/-- C9 (amended): for every combination of available and unavailable
DPI APIs, the resolver returns the first available tier of the
handle-dependent chain `amendedDpiTiers`, with 96 as the final
fallback; an unavailable tier falls through and the query never fails. -/
theorem c9_dpi_fallback_order (env : DpiEnv) (handle : Nat) :
    getDpiForWindowM env handle = firstSome (amendedDpiTiers env handle) 96 := by
  unfold getDpiForWindowM amendedDpiTiers getScreenDpi
  by_cases h : handle = 0
  · simp only [h, reduceIte]
    cases env.GetSystemDpiForProcess with
    | some dpi => rfl
    | none =>
      cases env.GetDpiForSystem with
      | some dpi => rfl
      | none =>
        cases env.d2dFactoryDpi with
        | some dpi => rfl
        | none => cases env.deviceCapsDpi <;> rfl
  · simp only [h, reduceIte]
    cases env.GetDpiForWindow with
    | some f => rfl
    | none =>
      cases env.GetDpiForMonitor with
      | some f => rfl
      | none =>
        cases env.d2dFactoryDpi with
        | some dpi => rfl
        | none => cases env.deviceCapsDpi <;> rfl

/-! ## WM_NCCALCSIZE handler -/

structure WinRect where
  left : Int
  top : Int
  right : Int
  bottom : Int
deriving DecidableEq

structure MonitorInfo where
  rcMonitor : WinRect
  rcWork : WinRect
deriving DecidableEq

def ABE_LEFT : Int := 0
def ABE_TOP : Int := 1
def ABE_RIGHT : Int := 2
def ABE_BOTTOM : Int := 3

/-- Inputs of the WM_NCCALCSIZE case: the message's wParam as a boolean,
IsMaximized, the result of MonitorFromWindow/GetMonitorInfoW, the
auto-hide bit of `SHAppBarMessage(ABM_GETSTATE)`, whether
`FindWindowW(L"Shell_TrayWnd")` returned a window, whether that window's
monitor is non-null and equals the window's monitor, and the `uEdge`
reported by `SHAppBarMessage(ABM_GETTASKBARPOS)`. -/
structure NcCalcEnv where
  wParam : Bool
  maximized : Bool
  monitor : Option MonitorInfo
  taskbarAutoHide : Bool
  taskbarWindowFound : Bool
  taskbarOnSameMonitor : Bool
  taskbarEdge : Int

/-- The WM_NCCALCSIZE case of `nativeEventFilter`: the returned triple is
(`params.rgrc[0]` after the handler, `*result`, the filter's return
value). -/
def handleNcCalcSize (env : NcCalcEnv) (rect : WinRect) :
    WinRect × Int × Bool :=
  let rectOut :=
    if env.wParam then
      if env.maximized then
        match env.monitor with
        | some mi =>
          let r0 := mi.rcWork
          if r0 = mi.rcMonitor then
            if env.taskbarAutoHide then
              let edge : Int :=
                if env.taskbarWindowFound && env.taskbarOnSameMonitor then
                  env.taskbarEdge
                else -1
              if edge = ABE_BOTTOM then { r0 with bottom := r0.bottom - 1 }
              else if edge = ABE_LEFT then { r0 with left := r0.left + 1 }
              else if edge = ABE_TOP then { r0 with top := r0.top + 1 }
              else if edge = ABE_RIGHT then { r0 with right := r0.right - 1 }
              else r0
            else r0
          else r0
        | none => rect
      else rect
    else rect
  (rectOut, 0, true)

/-- Spec-side handler, written from the amended claim's words: always
handled with zero result; when wParam is TRUE, the window is maximized
and a monitor was resolved, the rectangle becomes the monitor's work
area, trimmed inward by one pixel on the auto-hiding taskbar's edge when
the work area equals the full monitor rectangle and the taskbar window
was found on the same monitor; otherwise the rectangle is unchanged. -/
def ncCalcSpec (env : NcCalcEnv) (rect : WinRect) : WinRect × Int × Bool :=
  let rectOut :=
    match env.monitor with
    | some mi =>
      if env.wParam && env.maximized then
        if mi.rcWork = mi.rcMonitor && env.taskbarAutoHide &&
            env.taskbarWindowFound && env.taskbarOnSameMonitor then
          if env.taskbarEdge = ABE_BOTTOM then
            ⟨mi.rcWork.left, mi.rcWork.top, mi.rcWork.right,
              mi.rcWork.bottom - 1⟩
          else if env.taskbarEdge = ABE_LEFT then
            ⟨mi.rcWork.left + 1, mi.rcWork.top, mi.rcWork.right,
              mi.rcWork.bottom⟩
          else if env.taskbarEdge = ABE_TOP then
            ⟨mi.rcWork.left, mi.rcWork.top + 1, mi.rcWork.right,
              mi.rcWork.bottom⟩
          else if env.taskbarEdge = ABE_RIGHT then
            ⟨mi.rcWork.left, mi.rcWork.top, mi.rcWork.right - 1,
              mi.rcWork.bottom⟩
          else mi.rcWork
        else mi.rcWork
      else rect
    | none => rect
  (rectOut, 0, true)

/-- C6 (amended): the embedded WM_NCCALCSIZE handler coincides with the
spec-side description for every environment and proposed rectangle; in
particular every frame-query message is marked fully handled with a zero
result, the work-area substitution happens exactly when wParam is TRUE,
the window is maximized and a monitor is resolved, and the one-pixel
taskbar correction happens exactly when the work area fills the monitor
and an auto-hiding taskbar is found on that same monitor. -/
theorem c6_nccalcsize (env : NcCalcEnv) (rect : WinRect) :
    handleNcCalcSize env rect = ncCalcSpec env rect := by
  unfold handleNcCalcSize ncCalcSpec
  cases hw : env.wParam <;> cases hm : env.maximized <;>
    cases hmon : env.monitor <;>
    simp only [Bool.false_and, Bool.and_false, Bool.true_and, Bool.and_true,
      reduceIte, Bool.false_eq_true]
  case true.true.some mi =>
    by_cases heq : mi.rcWork = mi.rcMonitor
    · cases hah : env.taskbarAutoHide
      · simp [heq, hah]
      · cases hfound : env.taskbarWindowFound <;>
          cases hsame : env.taskbarOnSameMonitor <;>
          simp only [heq, hah, reduceIte, Bool.true_and, Bool.false_and,
            Bool.and_true, Bool.and_false, Bool.true_eq_false,
            Bool.false_eq_true, Bool.and_self]
        · simp [ABE_BOTTOM, ABE_LEFT, ABE_TOP, ABE_RIGHT]
        · simp [ABE_BOTTOM, ABE_LEFT, ABE_TOP, ABE_RIGHT]
        · simp [ABE_BOTTOM, ABE_LEFT, ABE_TOP, ABE_RIGHT]
        · by_cases h3 : env.taskbarEdge = ABE_BOTTOM
          · simp [h3]
          · by_cases h0 : env.taskbarEdge = ABE_LEFT
            · simp [h3, h0]
            · by_cases h1 : env.taskbarEdge = ABE_TOP
              · simp [h3, h0, h1]
              · by_cases h2 : env.taskbarEdge = ABE_RIGHT
                · simp [h3, h0, h1, h2]
                · simp [h3, h0, h1, h2]
    · simp [heq]

def c6Env : NcCalcEnv :=
  { wParam := false
    maximized := true
    monitor := some { rcMonitor := ⟨0, 0, 1920, 1080⟩
                      rcWork := ⟨0, 0, 1920, 1040⟩ }
    taskbarAutoHide := false
    taskbarWindowFound := false
    taskbarOnSameMonitor := false
    taskbarEdge := -1 }

def c6Rect : WinRect := ⟨10, 10, 500, 500⟩

/-- C6 counterexample: a WM_NCCALCSIZE message with wParam FALSE for a
maximized window leaves the rectangle untouched — the claim's
unconditional "when the window is maximized the proposed client
rectangle is replaced by the monitor's work area" fails, although the
message is still handled with a zero result. -/
theorem c6_counterexample :
    c6Env.wParam = false ∧
    c6Env.maximized = true ∧
    c6Env.monitor = some { rcMonitor := ⟨0, 0, 1920, 1080⟩
                           rcWork := ⟨0, 0, 1920, 1040⟩ } ∧
    (handleNcCalcSize c6Env c6Rect).1 = c6Rect ∧
    (handleNcCalcSize c6Env c6Rect).1 ≠ (⟨0, 0, 1920, 1040⟩ : WinRect) ∧
    (handleNcCalcSize c6Env c6Rect).2 = (0, true) := by decide

/-! ## Per-window registry (`m_framelessWindows` and GWLP_USERDATA)

`HWND` becomes `Nat`, with `0` the null handle.  The per-window `WINDOW`
record that `createUserData` stores behind `GWLP_USERDATA` becomes an
association list keyed by handle. -/

/-- `WinNativeEventFilter::WINDOWDATA`: the per-window settings record
passed by the caller. -/
structure WINDOWDATA where
  blurEnabled : Bool := false
  borderWidth : Int := 0
  borderHeight : Int := 0
  titlebarHeight : Int := 0
  ignoreAreas : List QRectQ := []
  draggableAreas : List QRectQ := []
  minimumWidth : Int := 0
  minimumHeight : Int := 0
deriving DecidableEq

/-- `WinNativeEventFilter::WINDOW`: the record behind GWLP_USERDATA. -/
structure WINDOW where
  hWnd : Nat := 0
  inited : Bool := false
  dwmCompositionEnabled : Bool := false
  themeEnabled : Bool := false
  windowData : WINDOWDATA := {}
deriving DecidableEq

/-- The process-wide mutable state touched by the registration API: the
`m_framelessWindows` vector, the per-window user data slots, and whether
the native event filter instance has been installed. -/
structure FilterState where
  framelessWindows : List Nat := []
  userData : List (Nat × WINDOW) := []
  installed : Bool := false
deriving DecidableEq

def lookupUserData (l : List (Nat × WINDOW)) (handle : Nat) :
    Option WINDOW :=
  (l.find? (fun p => p.1 = handle)).map Prod.snd

def setUserData (l : List (Nat × WINDOW)) (handle : Nat) (w : WINDOW) :
    List (Nat × WINDOW) :=
  match l with
  | [] => [(handle, w)]
  | (k, v) :: rest =>
    if k = handle then (k, w) :: rest else (k, v) :: setUserData rest handle w

/-- `WinNativeEventFilter::createUserData`: if a record exists, only an
explicitly supplied WINDOWDATA overwrites `windowData`; otherwise a new
record is allocated with the handle and the supplied (or default)
WINDOWDATA. -/
def createUserData (s : FilterState) (handle : Nat)
    (data : Option WINDOWDATA) : FilterState :=
  if handle ≠ 0 then
    match lookupUserData s.userData handle with
    | some ud =>
      match data with
      | some d =>
        { s with userData := (setUserData s.userData handle
            { ud with windowData := d }) }
      | none => s
    | none =>
      { s with userData := (setUserData s.userData handle
          { hWnd := handle, windowData := data.getD {} }) }
  else s

/-- `WinNativeEventFilter::addFramelessWindow`: insert the handle if it
is non-null and not yet present, create user data when settings are
supplied, and install the filter. -/
def addFramelessWindow (s : FilterState) (window : Nat)
    (data : Option WINDOWDATA) : FilterState :=
  if window ≠ 0 ∧ ¬ s.framelessWindows.contains window then
    let s1 := { s with framelessWindows := s.framelessWindows ++ [window] }
    let s2 :=
      match data with
      | some d => createUserData s1 window (some d)
      | none => s1
    { s2 with installed := true }
  else s

/-- `WinNativeEventFilter::removeFramelessWindow`: remove all occurrences
of a non-null registered handle (then `updateWindow`, which only calls
Win32 APIs and touches no registry state). -/
def removeFramelessWindow (s : FilterState) (window : Nat) : FilterState :=
  if window ≠ 0 ∧ s.framelessWindows.contains window then
    { s with framelessWindows :=
        s.framelessWindows.filter (fun w => w ≠ window) }
  else s

/-- `FramelessHelperQt`'s per-window record contents (`UserSettings` is
declared in a header outside this snapshot; only its identity matters
here, so it is carried opaquely). -/
structure UserSettings where
  options : Int := 0
deriving DecidableEq

/-- The parts of `SystemParameters` consumed by
`FramelessHelperQt::addWindow`: validity and the window id. -/
structure SystemParameters where
  valid : Bool := true
  windowId : Nat := 0
deriving DecidableEq

structure QtHelperData where
  settings : UserSettings := {}
  params : SystemParameters := {}
deriving DecidableEq

/-- The `g_qtHelper` table (`QHash<WId, QtHelperData>`), as an
association list. -/
structure QtHelperState where
  data : List (Nat × QtHelperData) := []
deriving DecidableEq

/-- `FramelessHelperQt::addWindow`: return early on invalid parameters or
an already-present window id, otherwise insert the new record. -/
def qtAddWindow (st : QtHelperState) (settings : UserSettings)
    (params : SystemParameters) : QtHelperState :=
  if ¬ params.valid then st
  else if ((st.data.find? (fun p => p.1 = params.windowId)).isSome) then st
  else { st with data :=
      st.data ++ [(params.windowId, { settings := settings, params := params })] }

/-- `FramelessManagerPrivate::removeWindow` restricted to the state it
mutates (`g_helper()->windowIds`): a null window returns early; an id not
in the list falls back to the id recorded by the Qt helper
(`FramelessHelperQt::appliedWinId`, declared outside this snapshot and
modelled as the explicit `appliedId` component), returning early when
that is 0 too; otherwise all occurrences of the resolved id are
removed. -/
def managerRemoveWindow (ids : List Nat) (window : Option (Nat × Nat)) :
    List Nat :=
  match window with
  | none => ids
  | some (winId, appliedId) =>
    if ids.contains winId then ids.filter (fun i => i ≠ winId)
    else if appliedId ≠ 0 then ids.filter (fun i => i ≠ appliedId)
    else ids

lemma find?_append_key {α : Type} [DecidableEq α] {β : Type}
    (l : List (α × β)) (k : α) (v : β) :
    (((l ++ [(k, v)]).find? (fun p => p.1 = k))).isSome = true := by
  induction l with
  | nil => simp
  | cons hd tl ih =>
    by_cases h : hd.1 = k
    · simp [List.find?, h]
    · simp [List.find?, h]

lemma createUserData_framelessWindows (s : FilterState) (handle : Nat)
    (data : Option WINDOWDATA) :
    (createUserData s handle data).framelessWindows = s.framelessWindows := by
  unfold createUserData
  by_cases h : handle ≠ 0
  · rw [if_pos h]
    cases lookupUserData s.userData handle with
    | some ud =>
      cases data with
      | some d => rfl
      | none => rfl
    | none => rfl
  · rw [if_neg h]

lemma addFramelessWindow_framelessWindows (s : FilterState) (window : Nat)
    (d : Option WINDOWDATA)
    (h : window ≠ 0 ∧ ¬ s.framelessWindows.contains window) :
    (addFramelessWindow s window d).framelessWindows =
      s.framelessWindows ++ [window] := by
  unfold addFramelessWindow
  rw [if_pos h]
  cases d with
  | none => rfl
  | some dd =>
    show (createUserData
        { s with framelessWindows := s.framelessWindows ++ [window] } window
        (some dd)).framelessWindows = s.framelessWindows ++ [window]
    rw [createUserData_framelessWindows]

lemma addFramelessWindow_of_contains (s : FilterState) (window : Nat)
    (d : Option WINDOWDATA)
    (h : s.framelessWindows.contains window = true) :
    addFramelessWindow s window d = s := by
  unfold addFramelessWindow
  rw [if_neg]
  intro hcon
  exact hcon.2 h

lemma addFramelessWindow_of_skip (s : FilterState) (window : Nat)
    (d : Option WINDOWDATA)
    (h : ¬ (window ≠ 0 ∧ ¬ s.framelessWindows.contains window)) :
    addFramelessWindow s window d = s := by
  unfold addFramelessWindow
  rw [if_neg h]

/-- C7: registering the same window identity twice is a no-op on both
registries: the second `addFramelessWindow` (with any settings) returns
the state produced by the first call unchanged — the list gains no second
entry and the per-window WINDOW record keeps every field — and likewise
the second `FramelessHelperQt::addWindow` leaves the first call's record
untouched, ignoring the second call's settings. -/
theorem c7_add_window_idempotent (s : FilterState) (window : Nat)
    (d1 d2 : Option WINDOWDATA) (st : QtHelperState)
    (set1 set2 : UserSettings) (params : SystemParameters) :
    addFramelessWindow (addFramelessWindow s window d1) window d2 =
      addFramelessWindow s window d1
    ∧ qtAddWindow (qtAddWindow st set1 params) set2 params =
        qtAddWindow st set1 params := by
  constructor
  · by_cases h : window ≠ 0 ∧ ¬ s.framelessWindows.contains window
    · apply addFramelessWindow_of_contains
      rw [addFramelessWindow_framelessWindows s window d1 h]
      simp
    · rw [addFramelessWindow_of_skip s window d1 h,
        addFramelessWindow_of_skip s window d2 h]
  · by_cases hv : ¬ params.valid
    · have hid : qtAddWindow st set1 params = st := by
        unfold qtAddWindow
        rw [if_pos hv]
      rw [hid]
      unfold qtAddWindow
      rw [if_pos hv]
    · by_cases hc : ((st.data.find? (fun p => p.1 = params.windowId)).isSome)
      · have hid : qtAddWindow st set1 params = st := by
          unfold qtAddWindow
          rw [if_neg hv, if_pos hc]
        rw [hid]
        unfold qtAddWindow
        rw [if_neg hv, if_pos hc]
      · have h1 : qtAddWindow st set1 params =
            { st with data := st.data ++ [(params.windowId,
                { settings := set1, params := params })] } := by
          unfold qtAddWindow
          rw [if_neg hv, if_neg hc]
        rw [h1]
        unfold qtAddWindow
        rw [if_neg hv, if_pos (find?_append_key st.data params.windowId _)]

/-- C8: removing an unregistered (or null) identity is a complete no-op
on both registries, with no failure signalled: `removeFramelessWindow`
returns its state unchanged when the handle is null or absent, and the
manager's `removeWindow` leaves `windowIds` unchanged for a null window
and for a window whose id is absent with no recorded applied id. -/
theorem c8_remove_window_noop (s : FilterState) (window : Nat)
    (ids : List Nat) (winId appliedId : Nat) :
    ((window = 0 ∨ s.framelessWindows.contains window = false) →
      removeFramelessWindow s window = s)
    ∧ managerRemoveWindow ids none = ids
    ∧ (ids.contains winId = false → appliedId = 0 →
        managerRemoveWindow ids (some (winId, appliedId)) = ids) := by
  refine ⟨?_, rfl, ?_⟩
  · intro h
    unfold removeFramelessWindow
    rw [if_neg]
    rcases h with h | h
    · intro hcon
      exact hcon.1 h
    · intro hcon
      rw [h] at hcon
      exact absurd hcon.2 (by simp)
  · intro hni happ
    have hmem : winId ∉ ids := by simpa using hni
    simp [managerRemoveWindow, happ, hmem]

/-- C8 witness: the theorem applied at concrete states — handle 7 absent
from a two-window registry, and an id 9 absent from the manager's list
with no applied id. -/
theorem c8_remove_window_noop_witness :
    removeFramelessWindow { framelessWindows := [1, 2] } 7 =
      { framelessWindows := [1, 2] }
    ∧ managerRemoveWindow [1, 2] (some (9, 0)) = [1, 2] :=
  ⟨(c8_remove_window_noop { framelessWindows := [1, 2] } 7 [1, 2] 9 0).1
      (Or.inr (by decide)),
   (c8_remove_window_noop { framelessWindows := [1, 2] } 7 [1, 2] 9 0).2.2
      (by decide) rfl⟩

/-- The prefilter at the top of `nativeEventFilter`: a null handle is
skipped; with an empty `m_framelessWindows` list the message is processed
iff the handle matches a top-level window of the application (one with a
live platform handle); with a non-empty list the message is processed iff
the handle is a member. -/
def shouldFilterWindow (framelessWindows : List Nat)
    (topLevelWindows : List Nat) (hwnd : Nat) : Bool :=
  if hwnd = 0 then false
  else if framelessWindows.isEmpty then topLevelWindows.contains hwnd
  else framelessWindows.contains hwnd

/-- C10: with no registered frameless window the filter still intercepts
every message whose non-null handle belongs to a top-level window, and
only a non-empty registration list restricts interception to its
members. -/
theorem c10_empty_registry_filter (framelessWindows topLevelWindows : List Nat)
    (hwnd : Nat) (h : hwnd ≠ 0) :
    (framelessWindows = [] →
      (shouldFilterWindow framelessWindows topLevelWindows hwnd = true ↔
        topLevelWindows.contains hwnd = true))
    ∧ (framelessWindows ≠ [] →
        (shouldFilterWindow framelessWindows topLevelWindows hwnd = true ↔
          framelessWindows.contains hwnd = true)) := by
  constructor
  · intro he
    unfold shouldFilterWindow
    rw [if_neg h, he]
    simp
  · intro hne
    unfold shouldFilterWindow
    rw [if_neg h, if_neg]
    simp [List.isEmpty_iff]
    exact hne

/-- C10 witness: the theorem applied with an empty registration list, a
top-level window 5 and the message handle 5. -/
theorem c10_empty_registry_filter_witness :
    shouldFilterWindow [] [5, 6] 5 = true :=
  ((c10_empty_registry_filter [] [5, 6] 5 (by decide)).1 rfl).mpr (by decide)

end FramelessHelper
